import Mathlib

/-!
Shallow embedding of the Kanban board store from `src/src/App.tsx`.

The store (`useKanbanStore`) owns an `IKanbanState` value and exposes the
mutation operations `setCardList`, `addCard`, `updateCard`, `deleteCard`,
`addList`, `toggleTheme`, `setSearchTerm` and `reorderCards`.  Each operation
is embedded as a pure function from state to state; calls to `Date.now()` are
made explicit as an integer parameter supplied at each call site (JavaScript
timestamps are integers in this program).  The seed data (`INITIAL_LISTS`,
`INITIAL_CARDS`) likewise takes the module-load instant as a parameter,
because the source computes the staggered `createdAt` values from `Date.now()`.
-/

/-- Interface `IList` from the source: a Kanban column. -/
structure IList where
  id : String
  title : String
  colorVar : String
  order : Nat
deriving Repr, DecidableEq

/-- Interface `ICard` from the source: a Kanban task card. -/
structure ICard where
  id : String
  listId : String
  title : String
  description : String
  createdAt : Int
deriving Repr, DecidableEq

/-- The `theme` field of the state: `'light' | 'dark'`. -/
inductive Theme where
  | light
  | dark
deriving Repr, DecidableEq

/-- Interface `IKanbanState` from the source: the whole board aggregate. -/
structure IKanbanState where
  lists : List IList
  cards : List ICard
  theme : Theme
  searchTerm : String
deriving Repr, DecidableEq

/-- Constant `INITIAL_LISTS` from the source (seed columns). -/
def INITIAL_LISTS : List IList :=
  [ { id := "list-1", title := "A Fazer", colorVar := "--color-list-red", order := 0 },
    { id := "list-2", title := "Em Progresso", colorVar := "--color-list-blue", order := 1 },
    { id := "list-3", title := "Concluído", colorVar := "--color-list-green", order := 2 } ]

/-- Constant `INITIAL_CARDS` from the source; `now` is `Date.now()` at module load. -/
def INITIAL_CARDS (now : Int) : List ICard :=
  [ { id := "card-1", listId := "list-1", title := "Criar Arquitetura do Projeto",
      description := "Definir o layout do Board e os componentes principais (Lista, Cartão, Modal).",
      createdAt := now - 3600000 },
    { id := "card-2", listId := "list-1", title := "Implementar Persistência",
      description := "Configurar o salvamento e carregamento dos dados no localStorage.",
      createdAt := now - 1800000 },
    { id := "card-3", listId := "list-2", title := "Desenvolver Drag & Drop",
      description := "Aplicar a lógica de D&D para mover cartões entre as colunas.",
      createdAt := now - 600000 },
    { id := "card-4", listId := "list-3", title := "Configurar Tema Escuro/Claro",
      description := "Criar o seletor de tema e aplicar estilos responsivos.",
      createdAt := now - 7200000 } ]

/-- The seed-state literal returned by `getInitialState` when nothing usable is
persisted: seed lists, seed cards, theme `'light'`, empty search term. -/
def seedState (now : Int) : IKanbanState :=
  { lists := INITIAL_LISTS, cards := INITIAL_CARDS now, theme := Theme.light, searchTerm := "" }

/-- Operation `setCardList(cardId, newListId)`: rewrite `listId` on every card whose id
matches; all other fields and all other cards are copied unchanged. -/
def setCardList (s : IKanbanState) (cardId newListId : String) : IKanbanState :=
  { s with
    cards := s.cards.map (fun card =>
      if card.id = cardId then { card with listId := newListId } else card) }

/-- Operation `addCard(listId, title, description)`: append a card with id
`card-${Date.now()}` and `createdAt = Date.now()`; `now` is that instant. -/
def addCard (s : IKanbanState) (now : Int) (listId title description : String) : IKanbanState :=
  { s with
    cards := s.cards ++
      [ { id := "card-" ++ toString now, listId := listId, title := title,
          description := description, createdAt := now } ] }

/-- Operation `updateCard(cardId, newTitle, newDescription)`: replace title and
description on every card whose id matches; everything else unchanged. -/
def updateCard (s : IKanbanState) (cardId newTitle newDescription : String) : IKanbanState :=
  { s with
    cards := s.cards.map (fun card =>
      if card.id = cardId then { card with title := newTitle, description := newDescription }
      else card) }

/-- Operation `deleteCard(cardId)`: keep every card whose id differs from `cardId`. -/
def deleteCard (s : IKanbanState) (cardId : String) : IKanbanState :=
  { s with cards := s.cards.filter (fun card => card.id ≠ cardId) }

/-- Operation `addList(title)`: append a list with id `list-${Date.now()}`, the fixed
yellow color token, and `order` equal to the current list count. -/
def addList (s : IKanbanState) (now : Int) (title : String) : IKanbanState :=
  { s with
    lists := s.lists ++
      [ { id := "list-" ++ toString now, title := title,
          colorVar := "--color-list-yellow", order := s.lists.length } ] }

/-- Operation `toggleTheme()`: flip `'light'` and `'dark'`. -/
def toggleTheme (s : IKanbanState) : IKanbanState :=
  { s with theme := if s.theme = Theme.light then Theme.dark else Theme.light }

/-- Operation `setSearchTerm(term)`: store the term verbatim. -/
def setSearchTerm (s : IKanbanState) (term : String) : IKanbanState :=
  { s with searchTerm := term }

/-- Operation `reorderCards(sourceListId, cardId, targetListId)`: the source ignores
`sourceListId` and delegates to `setCardList(cardId, targetListId)`. -/
def reorderCards (s : IKanbanState) (sourceListId : Option String)
    (cardId targetListId : String) : IKanbanState :=
  setCardList s cardId targetListId

/-- One store operation, with the `Date.now()` value made explicit where the
source reads the clock. -/
inductive Op where
  | setCardList (cardId newListId : String)
  | addCard (now : Int) (listId title description : String)
  | updateCard (cardId newTitle newDescription : String)
  | deleteCard (cardId : String)
  | addList (now : Int) (title : String)
  | toggleTheme
  | setSearchTerm (term : String)
  | reorderCards (sourceListId : Option String) (cardId targetListId : String)
deriving Repr, DecidableEq

/-- Dispatch one operation on the state. -/
def applyOp (s : IKanbanState) : Op → IKanbanState
  | Op.setCardList cid lid => setCardList s cid lid
  | Op.addCard now lid t d => addCard s now lid t d
  | Op.updateCard cid t d => updateCard s cid t d
  | Op.deleteCard cid => deleteCard s cid
  | Op.addList now t => addList s now t
  | Op.toggleTheme => toggleTheme s
  | Op.setSearchTerm t => setSearchTerm s t
  | Op.reorderCards src cid tgt => reorderCards s src cid tgt

/-- Run a sequence of operations left to right. -/
def applyOps (s : IKanbanState) (ops : List Op) : IKanbanState :=
  ops.foldl applyOp s

/-- The card ids currently in the state, in order. -/
def cardIds (s : IKanbanState) : List String :=
  s.cards.map (fun c => c.id)

/-- The list ids currently in the state, in order. -/
def listIds (s : IKanbanState) : List String :=
  s.lists.map (fun l => l.id)

/-- The card id that `addCard` generates at clock instant `now`. -/
def genCardId (now : Int) : String := "card-" ++ toString now

/-- The list id that `addList` generates at clock instant `now`. -/
def genListId (now : Int) : String := "list-" ++ toString now

/-- The card ids a sequence of operations will generate (one per `addCard`). -/
def genCardIds : List Op → List String
  | [] => []
  | Op.addCard now _ _ _ :: rest => genCardId now :: genCardIds rest
  | _ :: rest => genCardIds rest

/-- The list ids a sequence of operations will generate (one per `addList`). -/
def genListIds : List Op → List String
  | [] => []
  | Op.addList now _ :: rest => genListId now :: genListIds rest
  | _ :: rest => genListIds rest

/-- C3: `setCardList` is idempotent — applying it twice with the same
arguments yields exactly the state after one application, so dropping a card
on the list it already belongs to is a successful no-op. -/
theorem setCardList_idempotent (s : IKanbanState) (cardId newListId : String) :
    setCardList (setCardList s cardId newListId) cardId newListId =
      setCardList s cardId newListId := by
  simp only [setCardList, List.map_map]
  congr 1
  refine List.map_congr_left (fun card _ => ?_)
  by_cases h : card.id = cardId <;> simp [Function.comp, h]

/-- C4: `reorderCards` produces exactly the state `setCardList` produces, and
the `sourceListId` argument has no effect on the result. -/
theorem reorderCards_eq_setCardList (s : IKanbanState) (src src' : Option String)
    (cardId targetListId : String) :
    reorderCards s src cardId targetListId = setCardList s cardId targetListId ∧
      reorderCards s src cardId targetListId = reorderCards s src' cardId targetListId :=
  ⟨rfl, rfl⟩

/-- C10: each operation touches only its designated slice of the state:
the four card operations leave `lists`, `theme` and `searchTerm` unchanged;
`addList` leaves `cards`, `theme` and `searchTerm` unchanged; `toggleTheme`
leaves everything but `theme` unchanged; `setSearchTerm` leaves everything but
`searchTerm` unchanged. -/
theorem op_frame_effects (s : IKanbanState) (cid lid t d term : String) (now : Int) :
    ((setCardList s cid lid).lists = s.lists ∧ (setCardList s cid lid).theme = s.theme ∧
      (setCardList s cid lid).searchTerm = s.searchTerm) ∧
    ((addCard s now lid t d).lists = s.lists ∧ (addCard s now lid t d).theme = s.theme ∧
      (addCard s now lid t d).searchTerm = s.searchTerm) ∧
    ((updateCard s cid t d).lists = s.lists ∧ (updateCard s cid t d).theme = s.theme ∧
      (updateCard s cid t d).searchTerm = s.searchTerm) ∧
    ((deleteCard s cid).lists = s.lists ∧ (deleteCard s cid).theme = s.theme ∧
      (deleteCard s cid).searchTerm = s.searchTerm) ∧
    ((addList s now t).cards = s.cards ∧ (addList s now t).theme = s.theme ∧
      (addList s now t).searchTerm = s.searchTerm) ∧
    ((toggleTheme s).lists = s.lists ∧ (toggleTheme s).cards = s.cards ∧
      (toggleTheme s).searchTerm = s.searchTerm) ∧
    ((setSearchTerm s term).lists = s.lists ∧ (setSearchTerm s term).cards = s.cards ∧
      (setSearchTerm s term).theme = s.theme) :=
  ⟨⟨rfl, rfl, rfl⟩, ⟨rfl, rfl, rfl⟩, ⟨rfl, rfl, rfl⟩, ⟨rfl, rfl, rfl⟩,
    ⟨rfl, rfl, rfl⟩, ⟨rfl, rfl, rfl⟩, ⟨rfl, rfl, rfl⟩⟩

/-- C2: when no card has the given id, `setCardList`, `updateCard` and
`deleteCard` are silent no-ops — the whole state, `lists` and `cards`
included, is unchanged, and no error is raised (the functions are total). -/
theorem unmatched_id_noop (s : IKanbanState) (cid lid t d : String)
    (h : ∀ c ∈ s.cards, c.id ≠ cid) :
    setCardList s cid lid = s ∧ updateCard s cid t d = s ∧ deleteCard s cid = s := by
  refine ⟨?_, ?_, ?_⟩
  · have h1 : s.cards.map (fun card =>
        if card.id = cid then { card with listId := lid } else card) = s.cards := by
      conv_rhs => rw [← List.map_id s.cards]
      exact List.map_congr_left (fun c hc => by simp [h c hc])
    simp only [setCardList, h1]
  · have h1 : s.cards.map (fun card =>
        if card.id = cid then { card with title := t, description := d } else card)
        = s.cards := by
      conv_rhs => rw [← List.map_id s.cards]
      exact List.map_congr_left (fun c hc => by simp [h c hc])
    simp only [updateCard, h1]
  · have h1 : s.cards.filter (fun card => card.id ≠ cid) = s.cards :=
      List.filter_eq_self.mpr (fun c hc => by simp [h c hc])
    simp only [deleteCard, h1]

/-- Witness for `unmatched_id_noop` at a concrete state and an id no card has. -/
theorem unmatched_id_noop_witness :
    (∀ c ∈ (seedState 0).cards, c.id ≠ "card-99") ∧
      (setCardList (seedState 0) "card-99" "list-1" = seedState 0 ∧
        updateCard (seedState 0) "card-99" "T" "D" = seedState 0 ∧
        deleteCard (seedState 0) "card-99" = seedState 0) :=
  ⟨by decide, unmatched_id_noop (seedState 0) "card-99" "list-1" "T" "D" (by decide)⟩

/-- Every single operation can only append to `lists`; it never edits or
removes an existing list. -/
theorem applyOp_lists_append (s : IKanbanState) (op : Op) :
    ∃ t, (applyOp s op).lists = s.lists ++ t := by
  cases op with
  | addList now title => exact ⟨_, rfl⟩
  | setCardList cid lid => exact ⟨[], (List.append_nil _).symm⟩
  | addCard now lid t d => exact ⟨[], (List.append_nil _).symm⟩
  | updateCard cid t d => exact ⟨[], (List.append_nil _).symm⟩
  | deleteCard cid => exact ⟨[], (List.append_nil _).symm⟩
  | toggleTheme => exact ⟨[], (List.append_nil _).symm⟩
  | setSearchTerm t => exact ⟨[], (List.append_nil _).symm⟩
  | reorderCards src cid tgt => exact ⟨[], (List.append_nil _).symm⟩

/-- A whole sequence of operations can only append to `lists`. -/
theorem applyOps_lists_append (ops : List Op) :
    ∀ s : IKanbanState, ∃ t, (applyOps s ops).lists = s.lists ++ t := by
  induction ops with
  | nil => exact fun s => ⟨[], (List.append_nil _).symm⟩
  | cons op rest ih =>
    intro s
    obtain ⟨u, hu⟩ := applyOp_lists_append s op
    obtain ⟨t, ht⟩ := ih (applyOp s op)
    refine ⟨u ++ t, ?_⟩
    rw [show applyOps s (op :: rest) = applyOps (applyOp s op) rest from rfl, ht, hu,
      List.append_assoc]

/-- C7: `addList` appends exactly one list whose `order` equals the pre-call
list count, and no sequence of operations ever modifies an existing list (its
`order` field included): the original lists survive verbatim as a prefix. -/
theorem addList_order_and_stability (s : IKanbanState) (now : Int) (title : String)
    (ops : List Op) :
    ((addList s now title).lists.length = s.lists.length + 1) ∧
    (∃ nl, (addList s now title).lists = s.lists ++ [nl] ∧ nl.order = s.lists.length) ∧
    ((applyOps s ops).lists.take s.lists.length = s.lists) := by
  refine ⟨by simp [addList], ⟨_, rfl, rfl⟩, ?_⟩
  obtain ⟨t, ht⟩ := applyOps_lists_append ops s
  rw [ht, List.take_left]

/-- C8: `updateCard` keeps the length of `cards` and, position by position,
replaces only the matching card's `title` and `description`, leaving its `id`,
`listId` and `createdAt` untouched and leaving every non-matching card
entirely unchanged. -/
theorem updateCard_frame (s : IKanbanState) (cid t d : String) (i : Nat)
    (h : i < s.cards.length) :
    (updateCard s cid t d).cards.length = s.cards.length ∧
    ∃ h2 : i < (updateCard s cid t d).cards.length,
      ((updateCard s cid t d).cards.get ⟨i, h2⟩).id = (s.cards.get ⟨i, h⟩).id ∧
      ((updateCard s cid t d).cards.get ⟨i, h2⟩).listId = (s.cards.get ⟨i, h⟩).listId ∧
      ((updateCard s cid t d).cards.get ⟨i, h2⟩).createdAt = (s.cards.get ⟨i, h⟩).createdAt ∧
      ((s.cards.get ⟨i, h⟩).id = cid →
        ((updateCard s cid t d).cards.get ⟨i, h2⟩).title = t ∧
        ((updateCard s cid t d).cards.get ⟨i, h2⟩).description = d) ∧
      ((s.cards.get ⟨i, h⟩).id ≠ cid →
        (updateCard s cid t d).cards.get ⟨i, h2⟩ = s.cards.get ⟨i, h⟩) := by
  have hlen : (updateCard s cid t d).cards.length = s.cards.length := by
    simp [updateCard]
  refine ⟨hlen, hlen ▸ h, ?_, ?_, ?_, ?_, ?_⟩ <;>
  · have hget : (updateCard s cid t d).cards.get ⟨i, hlen ▸ h⟩ =
        (fun card =>
          if card.id = cid then { card with title := t, description := d } else card)
          (s.cards.get ⟨i, h⟩) := by
      simp [updateCard]
    rw [hget]
    simp only [List.get_eq_getElem]
    by_cases hc : s.cards[i].id = cid <;> simp [hc]

/-- Witness for `updateCard_frame` on the seed state's first card. -/
theorem updateCard_frame_witness :
    (0 < (seedState 0).cards.length) ∧
    ((updateCard (seedState 0) "card-1" "T" "D").cards.length = (seedState 0).cards.length ∧
    ∃ h2 : 0 < (updateCard (seedState 0) "card-1" "T" "D").cards.length,
      ((updateCard (seedState 0) "card-1" "T" "D").cards.get ⟨0, h2⟩).id =
        ((seedState 0).cards.get ⟨0, by decide⟩).id ∧
      ((updateCard (seedState 0) "card-1" "T" "D").cards.get ⟨0, h2⟩).listId =
        ((seedState 0).cards.get ⟨0, by decide⟩).listId ∧
      ((updateCard (seedState 0) "card-1" "T" "D").cards.get ⟨0, h2⟩).createdAt =
        ((seedState 0).cards.get ⟨0, by decide⟩).createdAt ∧
      (((seedState 0).cards.get ⟨0, by decide⟩).id = "card-1" →
        ((updateCard (seedState 0) "card-1" "T" "D").cards.get ⟨0, h2⟩).title = "T" ∧
        ((updateCard (seedState 0) "card-1" "T" "D").cards.get ⟨0, h2⟩).description = "D") ∧
      (((seedState 0).cards.get ⟨0, by decide⟩).id ≠ "card-1" →
        (updateCard (seedState 0) "card-1" "T" "D").cards.get ⟨0, h2⟩ =
          (seedState 0).cards.get ⟨0, by decide⟩)) :=
  ⟨by decide, updateCard_frame (seedState 0) "card-1" "T" "D" 0 (by decide)⟩

/-- JavaScript `a.includes(b)` on strings: true when `b` is a contiguous
substring of `a`.  Embedded as list-of-characters containment. -/
def jsIncludes (s pat : String) : Bool :=
  decide (pat.toList <:+: s.toList)

/-- The read-side search projection `filteredCards` from `BoardView`: keep a
card when the lowercased search term occurs in its lowercased title or in its
lowercased description. -/
def filteredCards (cards : List ICard) (searchTerm : String) : List ICard :=
  cards.filter (fun card =>
    jsIncludes card.title.toLower searchTerm.toLower ||
    jsIncludes card.description.toLower searchTerm.toLower)

/-- The spec's wording of the search predicate: the search term,
case-insensitively, is a substring of the card's title or description. -/
def matchesSearch (searchTerm : String) (card : ICard) : Prop :=
  searchTerm.toLower.toList <:+: card.title.toLower.toList ∨
  searchTerm.toLower.toList <:+: card.description.toLower.toList

/-- C5: the search projection is a pure function of `cards` and `searchTerm`:
a card is in the filtered result iff it is in `cards` and the search term is,
case-insensitively, a substring of its title or description; the empty search
term keeps every card (so the projection returns `cards` itself, mutating
nothing). -/
theorem filteredCards_spec (cards : List ICard) (term : String) :
    (∀ c, c ∈ filteredCards cards term ↔ c ∈ cards ∧ matchesSearch term c) ∧
    (term = "" → filteredCards cards term = cards) := by
  constructor
  · intro c
    simp [filteredCards, jsIncludes, matchesSearch, List.mem_filter]
  · rintro rfl
    apply List.filter_eq_self.mpr
    intro c _
    have he : "".toLower.data = ([] : List Char) := by
      simp [String.toLower, String.map_eq]
    simp [jsIncludes, he]

/-- Witness for `filteredCards_spec`: with the empty search term the seed
cards all survive the projection. -/
theorem filteredCards_spec_witness :
    filteredCards (INITIAL_CARDS 0) "" = INITIAL_CARDS 0 :=
  (filteredCards_spec (INITIAL_CARDS 0) "").2 rfl

/-- Structured JSON values, the shape `JSON.stringify` writes under the
storage key and `JSON.parse` reads back.  The textual layer
(`JSON.stringify`/`JSON.parse` of the runtime) is a faithful inverse pair on
these values, so persistence is embedded at the level of structured values. -/
inductive Json where
  | str (s : String)
  | num (n : Int)
  | arr (xs : List Json)
  | obj (fields : List (String × Json))

/-- Serialize one list (column) the way `JSON.stringify` lays it out. -/
def encodeList (l : IList) : Json :=
  Json.obj [("id", Json.str l.id), ("title", Json.str l.title),
    ("colorVar", Json.str l.colorVar), ("order", Json.num (Int.ofNat l.order))]

/-- Read one list back from its serialized shape. -/
def decodeList : Json → Option IList
  | Json.obj [("id", Json.str id), ("title", Json.str title),
      ("colorVar", Json.str colorVar), ("order", Json.num (Int.ofNat o))] =>
    some { id := id, title := title, colorVar := colorVar, order := o }
  | _ => none

/-- Serialize one card the way `JSON.stringify` lays it out. -/
def encodeCard (c : ICard) : Json :=
  Json.obj [("id", Json.str c.id), ("listId", Json.str c.listId),
    ("title", Json.str c.title), ("description", Json.str c.description),
    ("createdAt", Json.num c.createdAt)]

/-- Read one card back from its serialized shape. -/
def decodeCard : Json → Option ICard
  | Json.obj [("id", Json.str id), ("listId", Json.str listId),
      ("title", Json.str title), ("description", Json.str description),
      ("createdAt", Json.num createdAt)] =>
    some { id := id, listId := listId, title := title, description := description,
           createdAt := createdAt }
  | _ => none

/-- Serialize the theme enum as the string `"light"` or `"dark"`. -/
def encodeTheme : Theme → Json
  | Theme.light => Json.str "light"
  | Theme.dark => Json.str "dark"

/-- Read the theme back. -/
def decodeTheme : Json → Option Theme
  | Json.str "light" => some Theme.light
  | Json.str "dark" => some Theme.dark
  | _ => none

/-- Decode every element of a serialized array, failing if any element fails. -/
def decodeMany {α : Type} (dec : Json → Option α) : List Json → Option (List α)
  | [] => some []
  | j :: js =>
    match dec j with
    | none => none
    | some a =>
      match decodeMany dec js with
      | none => none
      | some as => some (a :: as)

/-- Serialize the whole aggregate: `{ lists, cards, theme, searchTerm }`,
exactly the document the persistence effect writes on every transition. -/
def encodeState (s : IKanbanState) : Json :=
  Json.obj [("lists", Json.arr (s.lists.map encodeList)),
    ("cards", Json.arr (s.cards.map encodeCard)),
    ("theme", encodeTheme s.theme),
    ("searchTerm", Json.str s.searchTerm)]

/-- Read a whole aggregate back from its serialized shape. -/
def decodeState : Json → Option IKanbanState
  | Json.obj [("lists", Json.arr ls), ("cards", Json.arr cs),
      ("theme", th), ("searchTerm", Json.str searchTerm)] =>
    match decodeMany decodeList ls, decodeMany decodeCard cs, decodeTheme th with
    | some lists, some cards, some theme =>
      some { lists := lists, cards := cards, theme := theme, searchTerm := searchTerm }
    | _, _, _ => none
  | _ => none

/-- The persistence side effect: write the serialized aggregate under the key. -/
def saveState (s : IKanbanState) : Option Json :=
  some (encodeState s)

/-- Loading, i.e. `getInitialState`, viewed at the structured-value level: absent or
malformed storage falls back to the seed; a well-formed document is adopted
verbatim. -/
def loadStoredState (now : Int) (storage : Option Json) : IKanbanState :=
  match storage with
  | none => seedState now
  | some j =>
    match decodeState j with
    | none => seedState now
    | some st => st

/-- Decoding inverts encoding elementwise, hence on whole arrays. -/
theorem decodeMany_map {α : Type} (dec : Json → Option α) (enc : α → Json)
    (hd : ∀ a, dec (enc a) = some a) (xs : List α) :
    decodeMany dec (xs.map enc) = some xs := by
  induction xs with
  | nil => rfl
  | cons a as ih => simp [decodeMany, hd, ih]

/-- C6: persistence round-trip — serializing the full aggregate (lists,
cards, theme, searchTerm) to the storage key and loading it back yields the
original state, for every state. -/
theorem persistence_roundtrip (s : IKanbanState) (now : Int) :
    loadStoredState now (saveState s) = s := by
  have hl : decodeMany decodeList (s.lists.map encodeList) = some s.lists :=
    decodeMany_map decodeList encodeList (fun l => rfl) s.lists
  have hc : decodeMany decodeCard (s.cards.map encodeCard) = some s.cards :=
    decodeMany_map decodeCard encodeCard (fun c => rfl) s.cards
  have hth : decodeTheme (encodeTheme s.theme) = some s.theme := by
    cases s.theme <;> rfl
  simp [loadStoredState, saveState, encodeState, decodeState, hl, hc, hth]

/-- Function `getInitialState` from the source.  `read` is the outcome of
`localStorage.getItem(STORAGE_KEY)` (which may itself throw, hence `Except`);
`parse` is `JSON.parse` composed with the unchecked cast to `IKanbanState`
(`none` models a parse exception).  The `try`/`catch` lands every failure on
the seed-state literal, and the JavaScript truthiness test `if (storedState)`
also skips the empty string. -/
def getInitialState (now : Int) (read : Except Unit (Option String))
    (parse : String → Option IKanbanState) : IKanbanState :=
  match read with
  | Except.error _ => seedState now
  | Except.ok none => seedState now
  | Except.ok (some str) =>
    if str = "" then seedState now
    else
      match parse str with
      | none => seedState now
      | some st => st

/-- C9: `load()` never raises (it is a total function): a missing key, a
failing read, or a failing parse all yield the fixed seed state — three lists
with orders 0, 1, 2 and four seed cards — and a successful parse is returned
verbatim. -/
theorem getInitialState_total_fallback (now : Int)
    (parse : String → Option IKanbanState) (str : String) (st : IKanbanState) :
    (getInitialState now (Except.error ()) parse = seedState now) ∧
    (getInitialState now (Except.ok none) parse = seedState now) ∧
    (parse str = none → getInitialState now (Except.ok (some str)) parse = seedState now) ∧
    (str ≠ "" → parse str = some st →
      getInitialState now (Except.ok (some str)) parse = st) ∧
    ((seedState now).lists.map (fun l => l.order) = [0, 1, 2]) ∧
    ((seedState now).cards.length = 4) := by
  refine ⟨rfl, rfl, ?_, ?_, rfl, rfl⟩
  · intro hp
    by_cases he : str = "" <;> simp [getInitialState, he, hp]
  · intro hne hp
    simp [getInitialState, hne, hp]

/-- Witness for `getInitialState_total_fallback`: a persisted payload that
parses is adopted verbatim. -/
theorem getInitialState_total_fallback_witness :
    getInitialState 0 (Except.ok (some "x")) (fun _ => some (seedState 1)) = seedState 1 :=
  (getInitialState_total_fallback 0 (fun _ => some (seedState 1)) "x"
    (seedState 1)).2.2.2.1 (by decide) rfl

/-- Operation `setCardList` rewrites `listId` only, so the multiset of card ids is
untouched. -/
theorem cardIds_setCardList (s : IKanbanState) (cid lid : String) :
    cardIds (setCardList s cid lid) = cardIds s := by
  simp only [cardIds, setCardList, List.map_map]
  refine List.map_congr_left (fun c _ => ?_)
  by_cases h : c.id = cid <;> simp [Function.comp, h]

/-- Operation `updateCard` rewrites text fields only, so the card ids are untouched. -/
theorem cardIds_updateCard (s : IKanbanState) (cid t d : String) :
    cardIds (updateCard s cid t d) = cardIds s := by
  simp only [cardIds, updateCard, List.map_map]
  refine List.map_congr_left (fun c _ => ?_)
  by_cases h : c.id = cid <;> simp [Function.comp, h]

/-- Operation `deleteCard` only removes cards, so its ids form a sublist. -/
theorem cardIds_deleteCard (s : IKanbanState) (cid : String) :
    List.Sublist (cardIds (deleteCard s cid)) (cardIds s) := by
  simp only [cardIds, deleteCard]
  exact (List.filter_sublist _).map _

/-- Operation `addCard` appends exactly the generated id. -/
theorem cardIds_addCard (s : IKanbanState) (now : Int) (lid t d : String) :
    cardIds (addCard s now lid t d) = cardIds s ++ [genCardId now] := by
  simp [cardIds, addCard, genCardId]

/-- Operation `addList` appends exactly the generated id. -/
theorem listIds_addList (s : IKanbanState) (now : Int) (t : String) :
    listIds (addList s now t) = listIds s ++ [genListId now] := by
  simp [listIds, addList, genListId]

/-- Card ids stay duplicate-free along any operation sequence, provided the
ids the sequence generates are distinct from each other and from the ids
already present. -/
theorem cardIds_nodup_of_fresh (ops : List Op) :
    ∀ s : IKanbanState, (cardIds s ++ genCardIds ops).Nodup →
      (cardIds (applyOps s ops)).Nodup := by
  induction ops with
  | nil =>
    intro s h
    simpa [applyOps, genCardIds] using h
  | cons op rest ih =>
    intro s h
    cases op with
    | addCard now lid t d =>
      apply ih
      rw [show applyOp s (Op.addCard now lid t d) = addCard s now lid t d from rfl,
        cardIds_addCard, List.append_assoc, List.singleton_append]
      exact h
    | setCardList cid lid =>
      apply ih
      rw [show applyOp s (Op.setCardList cid lid) = setCardList s cid lid from rfl,
        cardIds_setCardList]
      exact h
    | updateCard cid t d =>
      apply ih
      rw [show applyOp s (Op.updateCard cid t d) = updateCard s cid t d from rfl,
        cardIds_updateCard]
      exact h
    | reorderCards src cid tgt =>
      apply ih
      rw [show applyOp s (Op.reorderCards src cid tgt) = setCardList s cid tgt from rfl,
        cardIds_setCardList]
      exact h
    | deleteCard cid =>
      apply ih
      exact List.Nodup.sublist
        (List.Sublist.append (cardIds_deleteCard s cid) (List.Sublist.refl _)) h
    | addList now t => exact ih _ h
    | toggleTheme => exact ih _ h
    | setSearchTerm t => exact ih _ h

/-- List ids stay duplicate-free along any operation sequence, provided the
ids the sequence generates are distinct from each other and from the ids
already present. -/
theorem listIds_nodup_of_fresh (ops : List Op) :
    ∀ s : IKanbanState, (listIds s ++ genListIds ops).Nodup →
      (listIds (applyOps s ops)).Nodup := by
  induction ops with
  | nil =>
    intro s h
    simpa [applyOps, genListIds] using h
  | cons op rest ih =>
    intro s h
    cases op with
    | addList now t =>
      apply ih
      rw [show applyOp s (Op.addList now t) = addList s now t from rfl,
        listIds_addList, List.append_assoc, List.singleton_append]
      exact h
    | setCardList cid lid => exact ih _ h
    | addCard now lid t d => exact ih _ h
    | updateCard cid t d => exact ih _ h
    | deleteCard cid => exact ih _ h
    | reorderCards src cid tgt => exact ih _ h
    | toggleTheme => exact ih _ h
    | setSearchTerm t => exact ih _ h

/-- C1 (amended): starting from the seed state, every sequence of store
operations keeps all list ids and all card ids unique, provided the generated
ids (`card-`/`list-` plus the clock value of each creation) are pairwise
distinct and distinct from the seed ids — i.e. provided no two creations
share a clock instant and no generated id collides with a seed id.  Without
that proviso the property fails (see the same-instant counterexample). -/
theorem ids_unique_of_fresh (now0 : Int) (ops : List Op)
    (hc : (cardIds (seedState now0) ++ genCardIds ops).Nodup)
    (hl : (listIds (seedState now0) ++ genListIds ops).Nodup) :
    (cardIds (applyOps (seedState now0) ops)).Nodup ∧
      (listIds (applyOps (seedState now0) ops)).Nodup :=
  ⟨cardIds_nodup_of_fresh ops _ hc, listIds_nodup_of_fresh ops _ hl⟩

/-- Witness for `ids_unique_of_fresh`: one `addCard` and one `addList` at
distinct fresh instants keep all ids unique. -/
theorem ids_unique_of_fresh_witness :
    ((cardIds (seedState 0) ++
        genCardIds [Op.addCard 5 "list-1" "T" "D", Op.addList 7 "Backlog"]).Nodup ∧
      (listIds (seedState 0) ++
        genListIds [Op.addCard 5 "list-1" "T" "D", Op.addList 7 "Backlog"]).Nodup) ∧
    ((cardIds (applyOps (seedState 0)
        [Op.addCard 5 "list-1" "T" "D", Op.addList 7 "Backlog"])).Nodup ∧
      (listIds (applyOps (seedState 0)
        [Op.addCard 5 "list-1" "T" "D", Op.addList 7 "Backlog"])).Nodup) :=
  ⟨⟨by decide, by decide⟩,
    ids_unique_of_fresh 0 [Op.addCard 5 "list-1" "T" "D", Op.addList 7 "Backlog"]
      (by decide) (by decide)⟩

/-- C1 counterexample: the id generator is `card-${Date.now()}` with no guard,
so two `addCard` calls in the same clock instant (here both at instant 100)
produce the same id `card-100` twice and card ids are no longer unique. -/
theorem same_instant_addCard_duplicates_id :
    ¬ (cardIds (applyOps (seedState 0)
        [Op.addCard 100 "list-1" "A" "B", Op.addCard 100 "list-2" "C" "D"])).Nodup := by
  decide
